import Mathlib

/-!
Shallow embedding of `src/tuspyserver/info.py` (class `TusUploadInfo`):
a per-upload metadata store with a lazily-populated in-memory cache,
an atomic write-temp-then-rename persist path, and a degrade-to-null
read path, each duplicated in a blocking (`_serialize_sync` /
`_deserialize_sync` / `params` property) and a non-blocking
(`serialize` / `deserialize` / `load_params` / `update_params`) variant.

The store is bound to one canonical path (`{files_dir}/{uid}.info`) and
one temp path (`path + ".tmp"`); the filesystem is modelled as the
contents of those two locations.  File contents are modelled up to the
distinctions the reader makes: empty/whitespace-only text, text that is
not valid JSON, and valid JSON text together with the parsed value.
I/O faults (TOCTOU disappearance, read errors, write/fsync errors,
rename errors, cleanup errors) are injected as explicit parameters, and
Python exceptions are an explicit error type threaded through `Except`
or an `Option PyErr` component of the result.
-/

namespace Tuspy

/-- Modelled from the spec: the repository's `TusUploadParams` record
(`tuspyserver/params.py` is not under `src/`).  The spec describes it as
a structured parameter record — "offset, size, client-supplied headers,
and similar bookkeeping" — that "serializes to and from a JSON object"
whose own fields define the schema. -/
structure TusUploadParams where
  offset : Nat
  size : Option Nat
  metadata : List (String × String)
deriving DecidableEq, Repr

/-- JSON values, as produced by `json.loads` on valid JSON text. -/
inductive JsonValue where
  | null
  | bool (b : Bool)
  | num (n : Int)
  | str (s : String)
  | arr (xs : List JsonValue)
  | obj (kvs : List (String × JsonValue))

/-- Python truthiness of a parsed JSON value (the `if json_dict:` test in
`_deserialize_sync` / `deserialize`). -/
def JsonValue.truthy : JsonValue → Bool
  | .null => false
  | .bool b => b
  | .num n => n != 0
  | .str s => !(s == "")
  | .arr xs => !xs.isEmpty
  | .obj kvs => !kvs.isEmpty

/-- The `__dict__`-based JSON encoding of a `TusUploadParams` instance,
as produced by `json.dumps(p, default=lambda k: k.__dict__)`: a JSON
object holding the record's fields. -/
def TusUploadParams.toJson (p : TusUploadParams) : JsonValue :=
  .obj [("offset", .num p.offset),
        ("size", match p.size with | none => .null | some n => .num n),
        ("metadata", .obj (p.metadata.map fun kv => (kv.1, .str kv.2)))]

/-- `json.dumps(self._params, ...)`: `None` encodes as JSON `null`, an
instance encodes via its `__dict__`. -/
def dumpsParams : Option TusUploadParams → JsonValue
  | none => .null
  | some p => p.toJson

def lookupField (kvs : List (String × JsonValue)) (k : String) : Option JsonValue :=
  (kvs.find? fun kv => kv.1 == k).map Prod.snd

def decodeOffset : JsonValue → Option Nat
  | .num n => if 0 ≤ n then some n.toNat else none
  | _ => none

def decodeSize : JsonValue → Option (Option Nat)
  | .null => some none
  | .num n => if 0 ≤ n then some (some n.toNat) else none
  | _ => none

def decodeMetaEntry : String × JsonValue → Option (String × String)
  | (k, .str s) => some (k, s)
  | _ => none

def decodeMetaList : List (String × JsonValue) → Option (List (String × String))
  | [] => some []
  | kv :: rest => do
    let e ← decodeMetaEntry kv
    let es ← decodeMetaList rest
    pure (e :: es)

def decodeMeta : JsonValue → Option (List (String × String))
  | .obj kvs => decodeMetaList kvs
  | _ => none

/-- Modelled from the spec: `TusUploadParams(**json_dict)`.  `none`
stands for the constructor raising (`TypeError` for a non-mapping or
unexpected/missing keyword arguments, `KeyError`/`TypeError` for a
structurally invalid object — "missing/extra/mistyped fields"). -/
def TusUploadParams.ofJson : JsonValue → Option TusUploadParams
  | .obj kvs =>
    if kvs.length = 3 then
      match lookupField kvs "offset", lookupField kvs "size",
            lookupField kvs "metadata" with
      | some ov, some sv, some mv =>
        match decodeOffset ov, decodeSize sv, decodeMeta mv with
        | some o, some s, some m => some ⟨o, s, m⟩
        | _, _, _ => none
      | _, _, _ => none
    else none
  | _ => none

/-- Content of one on-disk file, up to the distinctions the reader
makes: empty/whitespace-only text, text that `json.loads` rejects, or
valid JSON text with its parsed value. -/
inductive RawContent where
  | blank
  | invalid
  | parsed (v : JsonValue)

/-- The two filesystem locations a store touches: its canonical path
`{files_dir}/{uid}.info` and its temp sibling `path + ".tmp"`.
`none` means no file exists at that location. -/
structure FsState where
  canonical : Option RawContent
  temp : Option RawContent

/-- Python exception classes raised or caught in `info.py`.
`jsonDecodeError` is `json.JSONDecodeError`; `ioError` stands for
`IOError`/`OSError`; `fileNotFoundError` for `FileNotFoundError`. -/
inductive PyErr where
  | jsonDecodeError
  | fileNotFoundError
  | keyError
  | typeError
  | valueError
  | ioError
deriving DecidableEq, Repr

/-- Fault injection for one read attempt: the open/read either succeeds
(`ok`), hits a TOCTOU disappearance (`vanished`, `FileNotFoundError`
after the `exists` check), or fails with an I/O error (`ioError`). -/
inductive ReadEnv where
  | ok
  | vanished
  | ioError
deriving DecidableEq, Repr

/-- Fault injection for one persist attempt: everything succeeds (`ok`),
`json.dumps` raises (`dumpsError`: `TypeError`/`ValueError`), the
open/write/flush/fsync of the temp file raises (`writeError`:
`IOError`/`OSError`), or `os.rename` raises (`renameError`). -/
inductive WriteEnv where
  | ok
  | dumpsError
  | writeError
  | renameError
deriving DecidableEq, Repr

/-- One persist attempt's faults: the main-path fault, plus whether the
best-effort `os.remove(temp_path)` in the error handler itself raises. -/
structure WriteFaults where
  env : WriteEnv
  cleanupFails : Bool
deriving DecidableEq, Repr

/-- In-memory state of a `TusUploadInfo` instance: the `_params` cache
and the `_loaded` flag.  (The `file` back-reference only determines the
paths, which the `FsState` already fixes.) -/
structure TusUploadInfo where
  _params : Option TusUploadParams
  _loaded : Bool
deriving DecidableEq, Repr

/-- `self.exists`: `os.path.exists(self.path)`. -/
def TusUploadInfo.exists (fs : FsState) : Bool :=
  fs.canonical.isSome

/-- The body of the `try` block shared by `_deserialize_sync` and
`deserialize`: open/read the canonical file, `strip()`, empty check,
`json.loads`, truthiness test, `TusUploadParams(**json_dict)`.  Returns
the updated store and the function's return value; a raised exception is
`Except.error`.  Runs only after `self.exists` returned true. -/
def readCanonical (self : TusUploadInfo) (fs : FsState) (env : ReadEnv) :
    Except PyErr (TusUploadInfo × Option TusUploadParams) :=
  match env with
  | .vanished => .error .fileNotFoundError
  | .ioError => .error .ioError
  | .ok =>
    match fs.canonical with
    | none => .error .fileNotFoundError
    | some .blank => .ok (self, none)
    | some .invalid => .error .jsonDecodeError
    | some (.parsed v) =>
      if v.truthy then
        match TusUploadParams.ofJson v with
        | some p => .ok ({ self with _params := some p }, some p)
        | none => .error .typeError
      else
        .ok ({ self with _params := none }, none)

/-- The exception classes the `except` clauses of `_deserialize_sync` /
`deserialize` catch: `json.JSONDecodeError`, `FileNotFoundError`,
`(KeyError, TypeError)`, `(IOError, OSError)`. -/
def caughtOnRead : PyErr → Bool
  | .jsonDecodeError => true
  | .fileNotFoundError => true
  | .keyError => true
  | .typeError => true
  | .ioError => true
  | .valueError => false

/-- `_deserialize_sync(self)`: if the file exists, run the read attempt;
each `except` clause sets `self._params = None` and falls through to
`return self._params`.  If the file does not exist, `self._params =
None` and return it. -/
def TusUploadInfo._deserialize_sync (self : TusUploadInfo) (fs : FsState) (env : ReadEnv) :
    Except PyErr (TusUploadInfo × Option TusUploadParams) :=
  if TusUploadInfo.exists fs then
    match readCanonical self fs env with
    | .ok r => .ok r
    | .error e =>
      if caughtOnRead e then .ok ({ self with _params := none }, none)
      else .error e
  else
    .ok ({ self with _params := none }, none)

/-- `async def deserialize(self)`: the aiofiles variant of the read
path, translated from its own lines; the logic (exists check, strip,
empty check, `json.loads`, truthiness, constructor, identical `except`
clauses) matches the blocking variant. -/
def TusUploadInfo.deserialize (self : TusUploadInfo) (fs : FsState) (env : ReadEnv) :
    Except PyErr (TusUploadInfo × Option TusUploadParams) :=
  if TusUploadInfo.exists fs then
    match readCanonical self fs env with
    | .ok r => .ok r
    | .error e =>
      if caughtOnRead e then .ok ({ self with _params := none }, none)
      else .error e
  else
    .ok ({ self with _params := none }, none)

/-- The `params` property getter: deserialize only when not yet loaded,
then mark loaded and return `self._params`.  The `Nat` component counts
the deserialize attempts (filesystem reads) this call performed. -/
def TusUploadInfo.params_get (self : TusUploadInfo) (fs : FsState) (env : ReadEnv) :
    Except PyErr (TusUploadInfo × Option TusUploadParams × Nat) :=
  if !self._loaded then
    match self._deserialize_sync fs env with
    | .ok (self1, _) =>
      let self2 : TusUploadInfo := { self1 with _loaded := true }
      .ok (self2, self2._params, 1)
    | .error e => .error e
  else
    .ok (self, self._params, 0)

/-- `async def load_params(self)`: deserialize only when not yet loaded,
then mark loaded and return `self._params`; the aiofiles variant of the
getter. -/
def TusUploadInfo.load_params (self : TusUploadInfo) (fs : FsState) (env : ReadEnv) :
    Except PyErr (TusUploadInfo × Option TusUploadParams × Nat) :=
  if !self._loaded then
    match self.deserialize fs env with
    | .ok (self1, _) =>
      let self2 : TusUploadInfo := { self1 with _loaded := true }
      .ok (self2, self2._params, 1)
    | .error e => .error e
  else
    .ok (self, self._params, 0)

/-- The error handlers' best-effort temp cleanup:
`if os.path.exists(temp_path): os.remove(temp_path)` inside a
`try/except Exception` that logs and swallows a cleanup failure. -/
def cleanupTemp (fs : FsState) (cleanupFails : Bool) : FsState :=
  if fs.temp.isSome && !cleanupFails then { fs with temp := none } else fs

/-- `_serialize_sync(self)`: write `json.dumps(self._params)` to
`path + ".tmp"`, flush, fsync, then `os.rename` onto the canonical
path.  On an injected failure: `open(temp_path, "w")` has already
truncated/created the temp file before `json.dumps` raises; a
write/flush/fsync failure leaves at most a partial body at the temp
path; a rename failure leaves the fully-written temp.  Each handler
does the best-effort cleanup and re-raises the original exception
(second component). -/
def TusUploadInfo._serialize_sync (self : TusUploadInfo) (fs : FsState) (w : WriteFaults) :
    FsState × Option PyErr :=
  match w.env with
  | .ok =>
    ({ canonical := some (.parsed (dumpsParams self._params)), temp := none }, none)
  | .dumpsError =>
    (cleanupTemp { fs with temp := some .blank } w.cleanupFails, some .typeError)
  | .writeError =>
    (cleanupTemp { fs with temp := some .invalid } w.cleanupFails, some .ioError)
  | .renameError =>
    (cleanupTemp { fs with temp := some (.parsed (dumpsParams self._params)) } w.cleanupFails,
     some .ioError)

/-- `async def serialize(self)`: the aiofiles variant of the atomic
persist, translated from its own lines; same temp-write, fsync, rename
and error-handling structure as the blocking variant. -/
def TusUploadInfo.serialize (self : TusUploadInfo) (fs : FsState) (w : WriteFaults) :
    FsState × Option PyErr :=
  match w.env with
  | .ok =>
    ({ canonical := some (.parsed (dumpsParams self._params)), temp := none }, none)
  | .dumpsError =>
    (cleanupTemp { fs with temp := some .blank } w.cleanupFails, some .typeError)
  | .writeError =>
    (cleanupTemp { fs with temp := some .invalid } w.cleanupFails, some .ioError)
  | .renameError =>
    (cleanupTemp { fs with temp := some (.parsed (dumpsParams self._params)) } w.cleanupFails,
     some .ioError)

/-- The `params` property setter: advance the cache, set
`self._loaded = True`, then blocking persist.  A persist failure
propagates (third component) after the cache has already advanced. -/
def TusUploadInfo.params_set (self : TusUploadInfo) (fs : FsState)
    (value : Option TusUploadParams) (w : WriteFaults) :
    TusUploadInfo × FsState × Option PyErr :=
  let self1 : TusUploadInfo := { _params := value, _loaded := true }
  let r := self1._serialize_sync fs w
  (self1, r.1, r.2)

/-- `async def update_params(self, value)`: advance the cache, set
`self._loaded = True`, then await the non-blocking persist. -/
def TusUploadInfo.update_params (self : TusUploadInfo) (fs : FsState)
    (value : Option TusUploadParams) (w : WriteFaults) :
    TusUploadInfo × FsState × Option PyErr :=
  let self1 : TusUploadInfo := { _params := value, _loaded := true }
  let r := self1.serialize fs w
  (self1, r.1, r.2)

/-- `__init__(self, file, params=None)`: seed the cache, set `_loaded`
to `params is not None`, and `if params and not self.exists:` perform a
blocking persist.  A `TusUploadParams` instance is truthy, so the `if
params` test agrees with `params is not None`.  A persist failure
propagates as a construction failure (third component); the first
component is the partially-constructed state. -/
def TusUploadInfo.init (params : Option TusUploadParams) (fs : FsState) (w : WriteFaults) :
    TusUploadInfo × FsState × Option PyErr :=
  let self : TusUploadInfo := { _params := params, _loaded := params.isSome }
  if params.isSome && !(TusUploadInfo.exists fs) then
    let r := self._serialize_sync fs w
    (self, r.1, r.2)
  else
    (self, fs, none)

/-! ### Helper lemmas -/

theorem decodeMeta_encode (m : List (String × String)) :
    decodeMeta (.obj (m.map fun kv => (kv.1, .str kv.2))) = some m := by
  induction m with
  | nil => rfl
  | cons hd tl ih =>
    obtain ⟨k, v⟩ := hd
    simp only [List.map_cons, decodeMeta] at *
    simp [decodeMetaList, decodeMetaEntry, ih]

theorem ofJson_toJson (p : TusUploadParams) :
    TusUploadParams.ofJson p.toJson = some p := by
  obtain ⟨o, s, m⟩ := p
  simp only [TusUploadParams.toJson, TusUploadParams.ofJson, lookupField]
  cases s <;>
    simp [List.find?, decodeOffset, decodeSize, decodeMeta_encode]

theorem toJson_truthy (p : TusUploadParams) : p.toJson.truthy = true := rfl

/-- The degenerate on-disk states: file absent, empty/whitespace-only,
malformed JSON, or valid JSON from which `TusUploadParams(**json_dict)`
does not produce a record (falsy value or structurally invalid
object). -/
def DegenerateDisk (fs : FsState) : Prop :=
  fs.canonical = none ∨ fs.canonical = some .blank ∨ fs.canonical = some .invalid ∨
    ∃ v, fs.canonical = some (.parsed v) ∧ TusUploadParams.ofJson v = none

/-! ### Claim theorems -/

/-- C6: Blocking/non-blocking equivalence — for every store state,
filesystem state and injected fault, `_deserialize_sync` and
`deserialize` produce the same result (same returned value, same final
cache state, same raised exception if any), `_serialize_sync` and
`serialize` produce the same final filesystem state and raised
exception, the `params` getter and `load_params` agree, and the
`params` setter and `update_params` agree. -/
theorem sync_async_equivalence :
    (∀ (s : TusUploadInfo) (fs : FsState) (env : ReadEnv),
        s._deserialize_sync fs env = s.deserialize fs env) ∧
    (∀ (s : TusUploadInfo) (fs : FsState) (w : WriteFaults),
        s._serialize_sync fs w = s.serialize fs w) ∧
    (∀ (s : TusUploadInfo) (fs : FsState) (env : ReadEnv),
        s.params_get fs env = s.load_params fs env) ∧
    (∀ (s : TusUploadInfo) (fs : FsState) (v : Option TusUploadParams) (w : WriteFaults),
        s.params_set fs v w = s.update_params fs v w) := by
  refine ⟨fun s fs env => rfl, fun s fs w => ?_, fun s fs env => ?_, fun s fs v w => ?_⟩
  · cases w with
    | mk env cf => cases env <;> rfl
  · simp only [TusUploadInfo.params_get, TusUploadInfo.load_params,
      TusUploadInfo._deserialize_sync, TusUploadInfo.deserialize]
  · simp only [TusUploadInfo.params_set, TusUploadInfo.update_params]
    cases w with
    | mk env cf => cases env <;> rfl

/-- C1: Round-trip — for every record R, every starting store and every
filesystem state, setting `params := R` (with no injected fault)
succeeds and leaves the cache at R; constructing a fresh store bound to
the same path (no initial record) touches nothing; and that fresh
store's `params` getter returns a record structurally equal to R. -/
theorem round_trip (R : TusUploadParams) (s : TusUploadInfo) (fs : FsState) :
    ∃ fs1, s.params_set fs (some R) ⟨.ok, false⟩ =
        ({ _params := some R, _loaded := true }, fs1, none) ∧
      TusUploadInfo.init none fs1 ⟨.ok, false⟩ =
        ({ _params := none, _loaded := false }, fs1, none) ∧
      ({ _params := none, _loaded := false } : TusUploadInfo).params_get fs1 .ok =
        .ok ({ _params := some R, _loaded := true }, some R, 1) := by
  refine ⟨{ canonical := some (.parsed R.toJson), temp := none }, rfl, rfl, ?_⟩
  simp [TusUploadInfo.params_get, TusUploadInfo._deserialize_sync, TusUploadInfo.exists,
    readCanonical, toJson_truthy, ofJson_toJson]

/-- C2: Read-path never raises — for every degenerate on-disk state
(file absent, empty, malformed JSON, structurally invalid record) or
injected read fault (TOCTOU disappearance, I/O error), the `params`
getter and `load_params` on a fresh store complete without raising and
return `None`, with the cause logged rather than propagated. -/
theorem read_path_never_raises (s : TusUploadInfo) (fs : FsState) (env : ReadEnv)
    (hnotloaded : s._loaded = false) (hfresh : s._params = none)
    (hdeg : DegenerateDisk fs ∨ env ≠ .ok) :
    s.params_get fs env = .ok ({ _params := none, _loaded := true }, none, 1) ∧
    s.load_params fs env = .ok ({ _params := none, _loaded := true }, none, 1) := by
  obtain ⟨sp, sl⟩ := s
  dsimp only at hnotloaded hfresh
  subst hnotloaded hfresh
  obtain ⟨c, t⟩ := fs
  cases env with
  | ok =>
    rcases hdeg with (h | h | h | ⟨v, h, hv⟩) | hne
    · simp only [FsState.canonical] at h
      subst h
      exact ⟨rfl, rfl⟩
    · simp only [FsState.canonical] at h
      subst h
      exact ⟨rfl, rfl⟩
    · simp only [FsState.canonical] at h
      subst h
      exact ⟨rfl, rfl⟩
    · simp only [FsState.canonical] at h
      subst h
      cases ht : v.truthy <;>
        constructor <;>
        simp [TusUploadInfo.params_get, TusUploadInfo.load_params,
          TusUploadInfo._deserialize_sync, TusUploadInfo.deserialize, TusUploadInfo.exists,
          readCanonical, caughtOnRead, ht, hv]
    · exact absurd rfl hne
  | vanished =>
    cases c <;> exact ⟨rfl, rfl⟩
  | ioError =>
    cases c <;> exact ⟨rfl, rfl⟩

/-- C2 witness: a fresh store over an absent file — the getter and
`load_params` return `None` without raising. -/
theorem read_path_never_raises_witness :
    (({ _params := none, _loaded := false } : TusUploadInfo)._loaded = false ∧
      DegenerateDisk { canonical := none, temp := none }) ∧
    ({ _params := none, _loaded := false } : TusUploadInfo).params_get
        { canonical := none, temp := none } .ok =
      .ok ({ _params := none, _loaded := true }, none, 1) ∧
    ({ _params := none, _loaded := false } : TusUploadInfo).load_params
        { canonical := none, temp := none } .ok =
      .ok ({ _params := none, _loaded := true }, none, 1) :=
  ⟨⟨rfl, Or.inl rfl⟩,
    read_path_never_raises _ _ _ rfl rfl (Or.inl (Or.inl rfl))⟩

/-- The exception class the persist path re-raises for each injected
fault: `json.dumps` failures (`TypeError`/`ValueError`) vs. I/O
failures (`IOError`/`OSError`). -/
def raisedOnWrite : WriteEnv → Option PyErr
  | .ok => none
  | .dumpsError => some .typeError
  | .writeError => some .ioError
  | .renameError => some .ioError

/-- C3: Write-path failure handling — for every failure injected during
serialization, temp-file write/sync, or rename, both `_serialize_sync`
and `serialize` re-raise the original exception (also when the cleanup
itself fails — the cleanup failure is swallowed), and when the cleanup
does not fail the temp file has been removed. -/
theorem write_failure_cleanup_and_reraise (s : TusUploadInfo) (fs : FsState) (w : WriteFaults)
    (hfail : w.env ≠ .ok) :
    ((s._serialize_sync fs w).2 = raisedOnWrite w.env ∧
      (w.cleanupFails = false → (s._serialize_sync fs w).1.temp = none)) ∧
    ((s.serialize fs w).2 = raisedOnWrite w.env ∧
      (w.cleanupFails = false → (s.serialize fs w).1.temp = none)) := by
  obtain ⟨env, cf⟩ := w
  cases env with
  | ok => exact absurd rfl hfail
  | dumpsError =>
    cases cf <;>
      simp [TusUploadInfo._serialize_sync, TusUploadInfo.serialize, raisedOnWrite, cleanupTemp]
  | writeError =>
    cases cf <;>
      simp [TusUploadInfo._serialize_sync, TusUploadInfo.serialize, raisedOnWrite, cleanupTemp]
  | renameError =>
    cases cf <;>
      simp [TusUploadInfo._serialize_sync, TusUploadInfo.serialize, raisedOnWrite, cleanupTemp]

/-- C3 witness: a rename failure with working cleanup — the original
I/O error is re-raised and the temp file is gone, on both paths. -/
theorem write_failure_cleanup_and_reraise_witness :
    (WriteEnv.renameError ≠ WriteEnv.ok) ∧
    ((({ _params := none, _loaded := true } : TusUploadInfo)._serialize_sync
        { canonical := none, temp := none } ⟨.renameError, false⟩).2 = some .ioError ∧
      (({ _params := none, _loaded := true } : TusUploadInfo)._serialize_sync
        { canonical := none, temp := none } ⟨.renameError, false⟩).1.temp = none) ∧
    ((({ _params := none, _loaded := true } : TusUploadInfo).serialize
        { canonical := none, temp := none } ⟨.renameError, false⟩).2 = some .ioError ∧
      (({ _params := none, _loaded := true } : TusUploadInfo).serialize
        { canonical := none, temp := none } ⟨.renameError, false⟩).1.temp = none) := by
  have h := write_failure_cleanup_and_reraise { _params := none, _loaded := true }
    { canonical := none, temp := none } ⟨.renameError, false⟩ (by simp)
  exact ⟨by simp, ⟨h.1.1, h.1.2 rfl⟩, ⟨h.2.1, h.2.2 rfl⟩⟩

/-- C4: Failed-set inconsistency window — for every `params := v`
assignment whose persist fails before the rename step (a serialization
or temp-write failure), the canonical file is unchanged, the failure
propagates, and the in-memory cache has already advanced: `_params = v`
and `_loaded = true`. -/
theorem failed_set_cache_advanced_disk_unchanged (s : TusUploadInfo) (fs : FsState)
    (v : Option TusUploadParams) (w : WriteFaults)
    (hfail : w.env = .dumpsError ∨ w.env = .writeError) :
    (s.params_set fs v w).1 = { _params := v, _loaded := true } ∧
    (s.params_set fs v w).2.1.canonical = fs.canonical ∧
    ((s.params_set fs v w).2.2).isSome = true := by
  obtain ⟨env, cf⟩ := w
  rcases hfail with h | h <;>
    (dsimp only at h; subst h) <;> cases cf <;>
    simp [TusUploadInfo.params_set, TusUploadInfo._serialize_sync, cleanupTemp]

/-- C4 witness: a temp-write failure during `params := R` — cache at R,
loaded, canonical file untouched, error propagated. -/
theorem failed_set_cache_advanced_disk_unchanged_witness :
    (WriteEnv.writeError = WriteEnv.dumpsError ∨ WriteEnv.writeError = WriteEnv.writeError) ∧
    ((({ _params := none, _loaded := false } : TusUploadInfo).params_set
        { canonical := some .blank, temp := none }
        (some ⟨7, some 21, [("filename", "a.txt")]⟩) ⟨.writeError, false⟩).1 =
      { _params := some ⟨7, some 21, [("filename", "a.txt")]⟩, _loaded := true } ∧
      (({ _params := none, _loaded := false } : TusUploadInfo).params_set
        { canonical := some .blank, temp := none }
        (some ⟨7, some 21, [("filename", "a.txt")]⟩) ⟨.writeError, false⟩).2.1.canonical =
        some .blank ∧
      ((({ _params := none, _loaded := false } : TusUploadInfo).params_set
        { canonical := some .blank, temp := none }
        (some ⟨7, some 21, [("filename", "a.txt")]⟩) ⟨.writeError, false⟩).2.2).isSome = true) :=
  ⟨Or.inr rfl,
    failed_set_cache_advanced_disk_unchanged { _params := none, _loaded := false }
      { canonical := some .blank, temp := none }
      (some ⟨7, some 21, [("filename", "a.txt")]⟩) ⟨.writeError, false⟩ (Or.inr rfl)⟩

/-- Helper: the blocking read path always completes with `.ok` (every
exception it can produce is caught) and never touches `_loaded`. -/
theorem _deserialize_sync_total (s : TusUploadInfo) (fs : FsState) (env : ReadEnv) :
    ∃ s1 v, s._deserialize_sync fs env = .ok (s1, v) ∧ s1._loaded = s._loaded := by
  obtain ⟨c, t⟩ := fs
  cases env with
  | ok =>
    match c with
    | none => exact ⟨_, _, rfl, rfl⟩
    | some .blank => exact ⟨_, _, rfl, rfl⟩
    | some .invalid => exact ⟨_, _, rfl, rfl⟩
    | some (.parsed v) =>
      cases ht : v.truthy with
      | false =>
        refine ⟨{ s with _params := none }, none, ?_, rfl⟩
        simp [TusUploadInfo._deserialize_sync, TusUploadInfo.exists, readCanonical, ht]
      | true =>
        cases hj : TusUploadParams.ofJson v with
        | none =>
          refine ⟨{ s with _params := none }, none, ?_, rfl⟩
          simp [TusUploadInfo._deserialize_sync, TusUploadInfo.exists, readCanonical,
            caughtOnRead, ht, hj]
        | some p =>
          refine ⟨{ s with _params := some p }, some p, ?_, rfl⟩
          simp [TusUploadInfo._deserialize_sync, TusUploadInfo.exists, readCanonical, ht, hj]
  | vanished => cases c <;> exact ⟨_, _, rfl, rfl⟩
  | ioError => cases c <;> exact ⟨_, _, rfl, rfl⟩

/-- C5: Idempotent load — every first `params` read or `load_params`
call completes, leaves `_loaded = true`, and afterwards every further
`params` read or `load_params` call — under any filesystem state and
any injected fault — performs zero filesystem reads and returns the
same cached value, leaving the store unchanged. -/
theorem load_idempotent (s : TusUploadInfo) (fs : FsState) (env : ReadEnv) :
    (∃ s1 v n, s.params_get fs env = .ok (s1, v, n) ∧ s1._loaded = true ∧
      (∀ fs2 env2, s1.params_get fs2 env2 = .ok (s1, v, 0)) ∧
      (∀ fs2 env2, s1.load_params fs2 env2 = .ok (s1, v, 0))) ∧
    (∃ s1 v n, s.load_params fs env = .ok (s1, v, n) ∧ s1._loaded = true ∧
      (∀ fs2 env2, s1.params_get fs2 env2 = .ok (s1, v, 0)) ∧
      (∀ fs2 env2, s1.load_params fs2 env2 = .ok (s1, v, 0))) := by
  have hdes : ∀ (s0 : TusUploadInfo), s0.deserialize fs env = s0._deserialize_sync fs env :=
    fun s0 => rfl
  have key : ∃ s1 v n, s.params_get fs env = .ok (s1, v, n) ∧ s1._loaded = true ∧
      v = s1._params := by
    cases hl : s._loaded with
    | true =>
      exact ⟨s, s._params, 0, by simp [TusUploadInfo.params_get, hl], hl, rfl⟩
    | false =>
      obtain ⟨s1, v, hok, hls⟩ := _deserialize_sync_total s fs env
      refine ⟨{ s1 with _loaded := true }, s1._params, 1, ?_, rfl, rfl⟩
      simp [TusUploadInfo.params_get, hl, hok]
  obtain ⟨s1, v, n, hok, hl1, hv⟩ := key
  have hrepeat : ∀ fs2 env2, s1.params_get fs2 env2 = .ok (s1, v, 0) := by
    intro fs2 env2
    simp [TusUploadInfo.params_get, hl1, hv]
  have hrepeat2 : ∀ fs2 env2, s1.load_params fs2 env2 = .ok (s1, v, 0) := by
    intro fs2 env2
    simp [TusUploadInfo.load_params, hl1, hv]
  have hget2 : s.load_params fs env = s.params_get fs env := by
    simp only [TusUploadInfo.load_params, TusUploadInfo.params_get, hdes]
  exact ⟨⟨s1, v, n, hok, hl1, hrepeat, hrepeat2⟩,
    ⟨s1, v, n, hget2 ▸ hok, hl1, hrepeat, hrepeat2⟩⟩

/-- C7: Create-on-construct — constructing with an initial record R
when no file exists at the derived path leaves, immediately after
construction, the cache at R, `_loaded = true`, and the file present
at the derived path containing the encoding of R; and any injected
persist failure propagates as a construction failure. -/
theorem create_on_construct (R : TusUploadParams) (fs : FsState) (w : WriteFaults)
    (hnofile : fs.canonical = none) :
    TusUploadInfo.init (some R) fs ⟨.ok, false⟩ =
      ({ _params := some R, _loaded := true },
       { canonical := some (.parsed (dumpsParams (some R))), temp := none }, none) ∧
    (w.env ≠ .ok → ((TusUploadInfo.init (some R) fs w).2.2).isSome = true) := by
  obtain ⟨c, t⟩ := fs
  dsimp only at hnofile
  subst hnofile
  refine ⟨rfl, ?_⟩
  intro hne
  obtain ⟨env, cf⟩ := w
  cases env with
  | ok => exact absurd rfl hne
  | dumpsError => rfl
  | writeError => rfl
  | renameError => rfl

/-- C7 witness: constructing over an absent file with a sample record
creates the file with that record's encoding; an injected write fault
instead fails the construction. -/
theorem create_on_construct_witness :
    (({ canonical := none, temp := none } : FsState).canonical = none ∧
      WriteEnv.writeError ≠ WriteEnv.ok) ∧
    TusUploadInfo.init (some ⟨0, none, []⟩) { canonical := none, temp := none } ⟨.ok, false⟩ =
      ({ _params := some ⟨0, none, []⟩, _loaded := true },
       { canonical := some (.parsed (dumpsParams (some ⟨0, none, []⟩))), temp := none },
       none) ∧
    ((TusUploadInfo.init (some ⟨0, none, []⟩) { canonical := none, temp := none }
        ⟨.writeError, false⟩).2.2).isSome = true :=
  ⟨⟨rfl, by simp⟩,
    (create_on_construct ⟨0, none, []⟩ { canonical := none, temp := none }
      ⟨.writeError, false⟩ rfl).1,
    (create_on_construct ⟨0, none, []⟩ { canonical := none, temp := none }
      ⟨.writeError, false⟩ rfl).2 (by simp)⟩

/-- C9: Construction over an existing file performs no write — the
whole filesystem state (canonical file and temp sibling) is unchanged,
no failure occurs, and the cache is seeded with the given record, so
memory and disk may diverge until the next explicit set. -/
theorem construct_existing_file_no_write (R : TusUploadParams) (fs : FsState) (w : WriteFaults)
    (hfile : fs.canonical.isSome = true) :
    TusUploadInfo.init (some R) fs w = ({ _params := some R, _loaded := true }, fs, none) := by
  simp [TusUploadInfo.init, TusUploadInfo.exists, hfile]

/-- C9 witness: constructing over an existing (even corrupt) file with
a sample record leaves the file untouched. -/
theorem construct_existing_file_no_write_witness :
    (({ canonical := some .invalid, temp := none } : FsState).canonical.isSome = true) ∧
    TusUploadInfo.init (some ⟨0, none, []⟩) { canonical := some .invalid, temp := none }
        ⟨.writeError, true⟩ =
      ({ _params := some ⟨0, none, []⟩, _loaded := true },
       { canonical := some .invalid, temp := none }, none) :=
  ⟨rfl, construct_existing_file_no_write _ _ _ rfl⟩

/-- C8 counterexample: on a store whose cache holds a record and whose
on-disk file is empty, the read routine returns `None`, yet the cached
record is NOT null afterwards — the empty-content path returns early
without writing to the cache, refuting "the cached record is null
afterwards" for a direct deserialize call. -/
theorem empty_file_counterexample :
    ({ _params := some ⟨7, some 21, [("filename", "a.txt")]⟩, _loaded := true } :
        TusUploadInfo)._deserialize_sync { canonical := some .blank, temp := none } .ok =
      .ok ({ _params := some ⟨7, some 21, [("filename", "a.txt")]⟩, _loaded := true }, none) ∧
    ({ _params := some ⟨7, some 21, [("filename", "a.txt")]⟩, _loaded := true } :
        TusUploadInfo)._params ≠ none :=
  ⟨rfl, by simp⟩

/-- C8 (amended): Empty file degrades to null — a load attempt on an
existing empty/whitespace-only file returns `None` and never raises,
with a warning logged; the empty-content path leaves the cached record
unchanged rather than writing null to it, so via the `params` getter or
`load_params` on a not-yet-loaded store (whose cache is still null) the
cached record is null afterwards and null is returned. -/
theorem empty_file_degrades_to_null (s : TusUploadInfo) (fs : FsState)
    (hempty : fs.canonical = some .blank) :
    s._deserialize_sync fs .ok = .ok (s, none) ∧
    s.deserialize fs .ok = .ok (s, none) ∧
    (s._loaded = false → s._params = none →
      s.params_get fs .ok = .ok ({ _params := none, _loaded := true }, none, 1) ∧
      s.load_params fs .ok = .ok ({ _params := none, _loaded := true }, none, 1)) := by
  obtain ⟨c, t⟩ := fs
  dsimp only at hempty
  subst hempty
  refine ⟨rfl, rfl, ?_⟩
  intro hl hp
  obtain ⟨sp, sl⟩ := s
  dsimp only at hl hp
  subst hl hp
  exact ⟨rfl, rfl⟩

/-- C8 witness: a fresh store over an empty file — the getter returns
`None` and the cache is null afterwards. -/
theorem empty_file_degrades_to_null_witness :
    (({ canonical := some .blank, temp := none } : FsState).canonical = some .blank ∧
      ({ _params := none, _loaded := false } : TusUploadInfo)._loaded = false) ∧
    ({ _params := none, _loaded := false } : TusUploadInfo).params_get
        { canonical := some .blank, temp := none } .ok =
      .ok ({ _params := none, _loaded := true }, none, 1) ∧
    ({ _params := none, _loaded := false } : TusUploadInfo).load_params
        { canonical := some .blank, temp := none } .ok =
      .ok ({ _params := none, _loaded := true }, none, 1) :=
  ⟨⟨rfl, rfl⟩, (empty_file_degrades_to_null _ _ rfl).2.2 rfl rfl⟩

/-- C10: the `_loaded` flag is monotone — the read routines never touch
it, the accessor paths and both setters force it to true, and
construction sets it to `params is not None`; once it is true, the
`params` getter and `load_params` return the cache with zero filesystem
reads and leave the store unchanged, so the disk is read at most once
over the store's lifetime. -/
theorem loaded_monotone (s : TusUploadInfo) (fs : FsState) :
    (∀ env s1 v, s._deserialize_sync fs env = .ok (s1, v) → s1._loaded = s._loaded) ∧
    (∀ env s1 v, s.deserialize fs env = .ok (s1, v) → s1._loaded = s._loaded) ∧
    (∀ env s1 v n, s.params_get fs env = .ok (s1, v, n) → s1._loaded = true) ∧
    (∀ env s1 v n, s.load_params fs env = .ok (s1, v, n) → s1._loaded = true) ∧
    (∀ v w, ((s.params_set fs v w).1)._loaded = true) ∧
    (∀ v w, ((s.update_params fs v w).1)._loaded = true) ∧
    (∀ p w, ((TusUploadInfo.init p fs w).1)._loaded = p.isSome) ∧
    (s._loaded = true → ∀ env, s.params_get fs env = .ok (s, s._params, 0) ∧
      s.load_params fs env = .ok (s, s._params, 0)) := by
  have hdes : ∀ (s1 : TusUploadInfo) (v : Option TusUploadParams) (env : ReadEnv),
      s._deserialize_sync fs env = .ok (s1, v) → s1._loaded = s._loaded := by
    intro s1 v env h
    obtain ⟨s1', v', hok, hl⟩ := _deserialize_sync_total s fs env
    rw [hok] at h
    simp only [Except.ok.injEq, Prod.mk.injEq] at h
    rw [h.1] at hl
    exact hl
  have hget : ∀ env s1 v n, s.params_get fs env = .ok (s1, v, n) → s1._loaded = true := by
    intro env s1 v n h
    cases hl : s._loaded with
    | true =>
      simp only [TusUploadInfo.params_get, hl, Bool.not_true, Bool.false_eq_true,
        if_false, Except.ok.injEq, Prod.mk.injEq] at h
      rw [← h.1]
      exact hl
    | false =>
      obtain ⟨s1', v', hok, _⟩ := _deserialize_sync_total s fs env
      simp only [TusUploadInfo.params_get, hl, Bool.not_false, if_true, hok,
        Except.ok.injEq, Prod.mk.injEq] at h
      rw [← h.1]
  refine ⟨fun env s1 v h => hdes s1 v env h,
    fun env s1 v h => hdes s1 v env h,
    hget,
    fun env s1 v n h => hget env s1 v n h,
    fun v w => rfl,
    fun v w => rfl,
    fun p w => ?_,
    fun hl env => ?_⟩
  · cases hex : (p.isSome && !(TusUploadInfo.exists fs)) <;>
      simp [TusUploadInfo.init, hex]
  · constructor <;>
      simp [TusUploadInfo.params_get, TusUploadInfo.load_params, hl]

/-- C10 witness: on an already-loaded store, the getter reads nothing
and returns the cache. -/
theorem loaded_monotone_witness :
    (({ _params := none, _loaded := true } : TusUploadInfo)._loaded = true) ∧
    ({ _params := none, _loaded := true } : TusUploadInfo).params_get
        { canonical := some .invalid, temp := none } .ioError =
      .ok ({ _params := none, _loaded := true }, none, 0) :=
  ⟨rfl, ((loaded_monotone { _params := none, _loaded := true }
      { canonical := some .invalid, temp := none }).2.2.2.2.2.2.2 rfl .ioError).1⟩

end Tuspy
